import Mathlib

/-!
Shallow embedding of the `changeelog/mid` news scraper
(`src/src/index.ts`, with the earlier variants `src/feed.ts` and the
unnamed file agreeing on the embedded fragments).

The scraper owns one browser session, navigates to a listing URL,
extracts news records from the DOM and writes them to a JSON file.
Pure computations (URL building, DOM extraction, tag splitting, JSON
serialization) are embedded as Lean functions over explicit data; the
effectful steps (navigation, waits, file writes) are embedded as
explicit state passing over environments recording which external
operations fail.
-/

/-- One extracted listing entry; mirrors `interface NewsItem` in
`src/src/index.ts` lines 18-24. -/
structure NewsItem where
  date : String
  time : String
  title : String
  link : String
  tags : List String
deriving DecidableEq

/-! ### JavaScript string primitives

The extraction code uses `String.prototype.trim`,
`String.prototype.split` with the non-empty literal separator `", "`,
and `String.prototype.includes`.  They are embedded at the
`List Char` level so that every definition is structural and
kernel-evaluable. -/

/-- Models `s.trim()`: strip leading and trailing whitespace. -/
def jsTrim (s : String) : String :=
  String.mk (((s.data.dropWhile Char.isWhitespace).reverse.dropWhile
      Char.isWhitespace).reverse)

/-- Fuel-indexed worker for `String.prototype.split` with a non-empty
separator: at each position, if the separator is a prefix of the rest
of the input, close the current field and consume the separator,
otherwise move one character into the current field.  One unit of fuel
is spent per consumed character, so fuel `l.length` always suffices;
the fuel-exhausted branch is unreachable at the call site below. -/
def jsSplitFuel (sep : List Char) : Nat → List Char → List (List Char)
  | _, [] => [[]]
  | 0, l => [l]
  | fuel + 1, c :: rest =>
    if !sep.isEmpty && sep.isPrefixOf (c :: rest) then
      [] :: jsSplitFuel sep fuel (rest.drop (sep.length - 1))
    else
      match jsSplitFuel sep fuel rest with
      | [] => [[c]]
      | h :: t => (c :: h) :: t

/-- Models `s.split(sep)` for a non-empty string separator `sep` (the
source only ever splits on `", "`). -/
def jsSplit (s sep : String) : List String :=
  (jsSplitFuel sep.data s.data.length s.data).map String.mk

/-- Worker for `String.prototype.includes`: does `pat` occur as a
contiguous sublist of `l`? -/
def containsSub : List Char → List Char → Bool
  | [], pat => pat.isEmpty
  | c :: rest, pat => pat.isPrefixOf (c :: rest) || containsSub rest pat

/-- Models `content.includes(marker)`. -/
def jsIncludes (content marker : String) : Bool :=
  containsSub content.data marker.data

/-! ### DOM model

A listing item (`.announce__item`) exposes four optional
sub-elements; an element carries an optional `textContent` (the `?.`
in the source guards against a null `textContent`), and the anchor
additionally carries its resolved `href`. -/

/-- A DOM element as seen by the extraction code: only its
`textContent` matters. -/
structure DomElem where
  textContent : Option String
deriving DecidableEq

/-- The `.announce__link` anchor: `textContent` plus resolved `href`. -/
structure AnchorElem where
  textContent : Option String
  href : String
deriving DecidableEq

/-- One `.announce__item` node with its queried sub-elements
(`querySelector` returning `null` is `none`). -/
structure DomItem where
  dateElement : Option DomElem
  timeElement : Option DomElem
  linkElement : Option AnchorElem
  tagsElement : Option DomElem
deriving DecidableEq

/-- The page DOM as seen by `getContent`: the
`.announce.announce_articles` container, if present, with its
`.announce__item` children in document order. -/
structure PageDom where
  announceList : Option (List DomItem)
deriving DecidableEq

/-- Models `element.textContent?.trim() || ''` (`src/src/index.ts`
lines 145-147): trimmed text, or the empty string when `textContent`
is null. -/
def textOrEmpty (textContent : Option String) : String :=
  match textContent with
  | none => ""
  | some s => jsTrim s

/-- Models the tags expression (`src/src/index.ts` lines 149-151):
`tagsElement ? tagsElement.textContent?.trim().split(', ') || [] : []`.
A missing tags element, or a null `textContent`, gives `[]`; otherwise
the trimmed text is split on the literal separator `", "`. -/
def extractTags (tagsElement : Option DomElem) : List String :=
  match tagsElement with
  | none => []
  | some e =>
    match e.textContent with
    | none => []
    | some t => jsSplit (jsTrim t) ", "

/-- Decides `if (dateElement && timeElement && linkElement)`
(`src/src/index.ts` line 143). -/
def hasRequired (item : DomItem) : Bool :=
  item.dateElement.isSome && item.timeElement.isSome &&
    item.linkElement.isSome

/-- The per-item body of the extraction loop (`src/src/index.ts`
lines 135-154): emit a full record when the date, time and link
elements are all present, nothing otherwise. -/
def extractItem (item : DomItem) : Option NewsItem :=
  match item.dateElement, item.timeElement, item.linkElement with
  | some d, some t, some l =>
    some { date := textOrEmpty d.textContent
           time := textOrEmpty t.textContent
           title := textOrEmpty l.textContent
           link := l.href
           tags := extractTags item.tagsElement }
  | _, _, _ => none

/-- The `page.evaluate` callback (`src/src/index.ts` lines 126-157):
if the `.announce.announce_articles` container is absent return `[]`,
otherwise fold the extraction loop over the items in document order
(`forEach` + conditional `push` is `List.filterMap`). -/
def extractNewsItems (dom : PageDom) : List NewsItem :=
  match dom.announceList with
  | none => []
  | some items => items.filterMap extractItem

/-! ### URL construction -/

/-- The hardcoded listing URL (`src/src/index.ts` line 100). -/
def listingBaseUrl : String := "https://mid.ru/ru/foreign_policy/news/"

/-- Models the url construction (`src/src/index.ts` lines 98-101):
the bare listing URL for page 1, otherwise the listing URL with the
page number interpolated into the `PAGEN_1` query parameter. -/
def buildUrl (pageNumber : Int) : String :=
  if pageNumber = 1 then listingBaseUrl
  else listingBaseUrl ++ "?PAGEN_1=" ++ toString pageNumber

/-! ### The fetch operation

`getContent` (`src/src/index.ts` lines 94-165) runs against a page
resource that may be absent (`this.page === null`).  The external
world of one call is a `PageEnv`: whether the `page.goto` navigation
throws, whether the two bounded waits time out, the rendered page
text inspected for the anti-bot marker, and the DOM handed to
`page.evaluate`.  The two waits sit inside `.catch(...)` handlers in
the source, so a timeout there is logged and absorbed; the only
throwing step reaching the surrounding `try` is the navigation, which
the `catch` rethrows as the fetch failure for that page. -/

/-- External behavior of the page during one `getContent` call. -/
structure PageEnv where
  gotoFails : Bool
  selectorTimesOut : Bool
  renderedContent : String
  navWaitTimesOut : Bool
  dom : PageDom
deriving DecidableEq

/-- The anti-bot interstitial marker (`src/src/index.ts` line 118). -/
def antiBotMarker : String := "Data processing... Please, wait."

/-- Models `pageContent.includes('Data processing... Please, wait.')`. -/
def detectAntiBot (content : String) : Bool :=
  jsIncludes content antiBotMarker

/-- How one `getContent` call ends: the `'Browser not initialized'`
throw (line 95), the wrapped `'Failed to fetch content from page N'`
throw (line 163), or a normal return of the extracted records. -/
inductive GetContentOutcome where
  | notInitialized
  | fetchError (pageNumber : Int)
  | ok (items : List NewsItem)
deriving DecidableEq

/-- Observable trace of one `getContent` call: its outcome, the URL
navigated to (if navigation was attempted), and which soft conditions
were logged. -/
structure GetContentTrace where
  outcome : GetContentOutcome
  navigatedTo : Option String
  selectorTimeoutLogged : Bool
  antiBotDetected : Bool
  navTimeoutLogged : Bool
deriving DecidableEq

/-- Models `getContent(pageNumber)` (`src/src/index.ts` lines 94-165):
fail fast when the page resource is absent; otherwise build the URL,
navigate (a navigation failure is caught and rethrown as the fetch
error for that page), absorb the selector-wait timeout, run the
anti-bot check and absorb its wait timeout, then extract and return
the records. -/
def getContent (page : Option PageEnv) (pageNumber : Int) :
    GetContentTrace :=
  match page with
  | none =>
    { outcome := GetContentOutcome.notInitialized
      navigatedTo := none
      selectorTimeoutLogged := false
      antiBotDetected := false
      navTimeoutLogged := false }
  | some env =>
    let url := buildUrl pageNumber
    if env.gotoFails then
      { outcome := GetContentOutcome.fetchError pageNumber
        navigatedTo := some url
        selectorTimeoutLogged := false
        antiBotDetected := false
        navTimeoutLogged := false }
    else
      let antiBot := detectAntiBot env.renderedContent
      { outcome := GetContentOutcome.ok (extractNewsItems env.dom)
        navigatedTo := some url
        selectorTimeoutLogged := env.selectorTimesOut
        antiBotDetected := antiBot
        navTimeoutLogged := antiBot && env.navWaitTimesOut }

/-! ### Persistence

`saveToJSON` (`src/src/index.ts` lines 173-186) ensures `./output`
exists, then writes `JSON.stringify(data, null, 2)` to
`path.join('./output', filename)` with `fs.writeFileSync`, which
truncates and replaces any existing file.  The filesystem is a store
of directories and files. -/

/-- Filesystem model: the set of existing directories and a map from
path to file content. -/
structure FS where
  dirs : List String
  files : List (String × String)
deriving DecidableEq

/-- Models `fs.existsSync(dir)` for a directory path. -/
def existsSyncDir (fs : FS) (d : String) : Bool := fs.dirs.contains d

/-- Models `fs.mkdirSync(dir, { recursive: true })`. -/
def mkdirSync (fs : FS) (d : String) : FS :=
  { fs with dirs := d :: fs.dirs }

/-- Models `fs.writeFileSync(path, content)`: create or truncate, so
any previous entry at the same path is replaced. -/
def writeFileSync (fs : FS) (p content : String) : FS :=
  { fs with files := (p, content) :: fs.files.filter (fun e => e.1 != p) }

/-- Content of the file at path `p`, if one exists. -/
def readFile (fs : FS) (p : String) : Option String :=
  (fs.files.find? (fun e => e.1 == p)).map Prod.snd

/-- Models `path.join('./output', filename)`: Node joins with `/` and
normalizes away the leading `./`. -/
def pathJoin (dir filename : String) : String :=
  (if dir.startsWith "./" then dir.drop 2 else dir) ++ "/" ++ filename

/-- The hardcoded output directory (`src/src/index.ts` line 175). -/
def outputDir : String := "./output"

/-! `JSON.stringify(data, null, 2)` for a `NewsItem` array, embedded
field by field. -/

/-- One hex digit for `\u00XX` escapes. -/
def hexDigit (n : Nat) : Char :=
  if n < 10 then Char.ofNat (48 + n) else Char.ofNat (87 + n)

/-- JSON string escaping as in `JSON.stringify`. -/
def escapeJsonChar (c : Char) : String :=
  if c = '"' then "\\\""
  else if c = '\\' then "\\\\"
  else if c = '\n' then "\\n"
  else if c = '\r' then "\\r"
  else if c = '\t' then "\\t"
  else if c = Char.ofNat 8 then "\\b"
  else if c = Char.ofNat 12 then "\\f"
  else if c.toNat < 32 then
    "\\u00" ++ String.mk [hexDigit (c.toNat / 16), hexDigit (c.toNat % 16)]
  else String.mk [c]

/-- A JSON string literal. -/
def jsonStr (s : String) : String :=
  "\"" ++ String.join (s.data.map escapeJsonChar) ++ "\""

/-- `2 * n` spaces, the indentation `JSON.stringify` uses with gap 2
at nesting depth `n`. -/
def jsonIndent (n : Nat) : String := String.mk (List.replicate (2 * n) ' ')

/-- A JSON string array at nesting depth `lvl`, as `JSON.stringify`
prints it: `[]` when empty, otherwise one element per line. -/
def jsonTagsArray (tags : List String) (lvl : Nat) : String :=
  match tags with
  | [] => "[]"
  | _ =>
    "[\n"
      ++ String.intercalate ",\n"
          (tags.map (fun t => jsonIndent (lvl + 1) ++ jsonStr t))
      ++ "\n" ++ jsonIndent lvl ++ "]"

/-- One `NewsItem` object at nesting depth `lvl`, fields in the
declaration order `JSON.stringify` preserves. -/
def jsonRecord (r : NewsItem) (lvl : Nat) : String :=
  "\x7b\n"
    ++ jsonIndent (lvl + 1) ++ "\"date\": " ++ jsonStr r.date ++ ",\n"
    ++ jsonIndent (lvl + 1) ++ "\"time\": " ++ jsonStr r.time ++ ",\n"
    ++ jsonIndent (lvl + 1) ++ "\"title\": " ++ jsonStr r.title ++ ",\n"
    ++ jsonIndent (lvl + 1) ++ "\"link\": " ++ jsonStr r.link ++ ",\n"
    ++ jsonIndent (lvl + 1) ++ "\"tags\": " ++ jsonTagsArray r.tags (lvl + 1)
    ++ "\n" ++ jsonIndent lvl ++ "\x7d"

/-- Models `JSON.stringify(data, null, 2)` for the record list:
`[]` for the empty array, otherwise one record per line at depth 1. -/
def jsonStringify (data : List NewsItem) : String :=
  match data with
  | [] => "[]"
  | _ =>
    "[\n"
      ++ String.intercalate ",\n"
          (data.map (fun r => jsonIndent 1 ++ jsonRecord r 1))
      ++ "\n]"

/-- The directory-ensuring step of `saveToJSON` (`src/src/index.ts`
lines 175-178). -/
def ensureOutputDir (fs : FS) : FS :=
  if existsSyncDir fs outputDir then fs else mkdirSync fs outputDir

/-- Models `saveToJSON(data, filename)` (`src/src/index.ts`
lines 173-186): ensure `./output` exists, then write the serialized
records to `path.join('./output', filename)`. -/
def saveToJSON (fs : FS) (data : List NewsItem) (filename : String) : FS :=
  writeFileSync (ensureOutputDir fs) (pathJoin outputDir filename)
    (jsonStringify data)

/-! ### Initialization, shutdown and the top-level run

`initialize` (`src/src/index.ts` lines 52-86) launches the browser,
then opens a page; `this.browser` is assigned before `this.page`, so a
`newPage` failure leaves a held browser with no page.  `close`
(lines 191-196) awaits `browser.close()` when a browser is held and
has no error handling of its own.  `main` (lines 200-215) runs
initialize, fetch and persist inside a `try` whose `catch` only logs;
its `finally` runs `close`, and only a rejection escaping `main` —
such as `close` throwing in the `finally` — reaches the outer
`main().catch` (lines 217-220), which logs and calls
`process.exit(1)`. -/

/-- The nullable session fields of `NewsFeedFetcher`
(`src/src/index.ts` lines 45-46): whether a browser is held, and the
page resource if one was opened. -/
structure FetcherState where
  browser : Bool
  page : Option PageEnv
deriving DecidableEq

/-- External behavior of one whole run. -/
structure RunEnv where
  launchFails : Bool
  newPageFails : Bool
  pageEnv : PageEnv
  saveFails : Bool
  closeFails : Bool
deriving DecidableEq

/-- Models `initialize()` (`src/src/index.ts` lines 52-86): the
resulting session fields, and whether the call threw (`true` when the
launch or the page open failed; the internal `catch` rethrows
`'Browser initialization failed'`). -/
def initializeFetcher (env : RunEnv) : FetcherState × Bool :=
  if env.launchFails then ({ browser := false, page := none }, true)
  else if env.newPageFails then ({ browser := true, page := none }, true)
  else ({ browser := true, page := some env.pageEnv }, false)

/-- How one `close()` call ends. -/
inductive CloseOutcome where
  | noSession
  | closedOk
  | threw
deriving DecidableEq

/-- Models `close()` (`src/src/index.ts` lines 191-196): nothing
happens when no browser is held; otherwise `browser.close()` is
awaited with no surrounding error handling, so its failure propagates
to the caller. -/
def close (browser : Bool) (closeFails : Bool) : CloseOutcome :=
  if browser then
    if closeFails then CloseOutcome.threw else CloseOutcome.closedOk
  else CloseOutcome.noSession

/-- Observable result of one process run. -/
structure RunResult where
  fs : FS
  exitCode : Nat
  navigations : List String
  errorLogged : Bool
  closeOutcome : CloseOutcome
deriving DecidableEq

/-- Models `main()` plus the outer `main().catch` (`src/src/index.ts`
lines 200-220).  The `try` body runs initialize, `getContent(1)` and
`saveToJSON(items, 'news_feed.json')` in order, stopping at the first
throw; the `catch` logs the error and swallows it; the `finally` runs
`close()`.  A `close` failure escapes `main`, and only then does the
outer handler log and exit with status 1; otherwise the process ends
with status 0. -/
def mainRun (env : RunEnv) (fs0 : FS) : RunResult :=
  let st := (initializeFetcher env).1
  let initThrew := (initializeFetcher env).2
  let tryResult : FS × List String × Bool :=
    if initThrew then (fs0, [], true)
    else
      let trace := getContent st.page 1
      let navs := match trace.navigatedTo with
        | none => ([] : List String)
        | some u => [u]
      match trace.outcome with
      | GetContentOutcome.ok items =>
        if env.saveFails then (ensureOutputDir fs0, navs, true)
        else (saveToJSON fs0 items "news_feed.json", navs, false)
      | _ => (fs0, navs, true)
  let closeResult := close st.browser env.closeFails
  let closeThrew : Bool :=
    match closeResult with
    | CloseOutcome.threw => true
    | _ => false
  { fs := tryResult.1
    exitCode := if closeThrew then 1 else 0
    navigations := tryResult.2.1
    errorLogged := tryResult.2.2 || closeThrew
    closeOutcome := closeResult }

/-! ### Fixtures -/

/-- Fixture: a well-formed listing item with tags. -/
def itemA : DomItem :=
  { dateElement := some { textContent := some "05.10.2024" }
    timeElement := some { textContent := some "12:30" }
    linkElement := some { textContent := some "Meeting with partners"
                          href := "https://mid.ru/ru/foreign_policy/news/a" }
    tagsElement := some { textContent := some "Diplomacy, Europe" } }

/-- Fixture: a malformed listing item — its time element is missing. -/
def itemMissingTime : DomItem :=
  { dateElement := some { textContent := some "05.10.2024" }
    timeElement := none
    linkElement := some { textContent := some "Broken entry"
                          href := "https://mid.ru/ru/foreign_policy/news/b" }
    tagsElement := some { textContent := some "Diplomacy" } }

/-- Fixture: a well-formed listing item without a tags element. -/
def itemB : DomItem :=
  { dateElement := some { textContent := some "04.10.2024" }
    timeElement := some { textContent := some "09:15" }
    linkElement := some { textContent := some "Press statement"
                          href := "https://mid.ru/ru/foreign_policy/news/c" }
    tagsElement := none }

/-- Fixture page environment: quiet page, no listing container. -/
def pageEnvPlain : PageEnv :=
  { gotoFails := false
    selectorTimesOut := false
    renderedContent := ""
    navWaitTimesOut := false
    dom := { announceList := none } }

/-- Fixture page environment: the selector wait times out and the
listing container never appears. -/
def pageEnvNoContainer : PageEnv :=
  { gotoFails := false
    selectorTimesOut := true
    renderedContent := ""
    navWaitTimesOut := false
    dom := { announceList := none } }

/-- Fixture run environment: the browser launch fails. -/
def runEnvInitFail : RunEnv :=
  { launchFails := true
    newPageFails := false
    pageEnv := pageEnvPlain
    saveFails := false
    closeFails := false }

/-- Fixture: an empty filesystem. -/
def emptyFS : FS := { dirs := [], files := [] }

/-! ### Helper lemmas -/

/-- Every branch of the split worker produces a nonempty list. -/
theorem jsSplitFuel_ne_nil (sep : List Char) (fuel : Nat) (l : List Char) :
    jsSplitFuel sep fuel l ≠ [] := by
  match fuel, l with
  | fuel, [] => cases fuel <;> simp [jsSplitFuel]
  | 0, c :: rest => simp [jsSplitFuel]
  | fuel + 1, c :: rest =>
    unfold jsSplitFuel
    split
    · simp
    · cases h : jsSplitFuel sep fuel rest <;> simp

/-- A JavaScript split on a separator never yields an empty array. -/
theorem jsSplit_ne_nil (s sep : String) : jsSplit s sep ≠ [] := by
  unfold jsSplit
  intro h
  exact jsSplitFuel_ne_nil sep.data s.data.length s.data
    (List.map_eq_nil_iff.mp h)

/-- Ensuring the output directory makes it exist. -/
theorem ensureOutputDir_exists (fs : FS) :
    existsSyncDir (ensureOutputDir fs) outputDir = true := by
  unfold ensureOutputDir
  split
  · assumption
  · simp [existsSyncDir, mkdirSync]

/-- Reading back a freshly written path yields the written content. -/
theorem readFile_write_self (fs : FS) (p c : String) :
    readFile (writeFileSync fs p c) p = some c := by
  simp [readFile, writeFileSync]

/-- Writing a file does not change the directory set. -/
theorem existsSyncDir_write (fs : FS) (p c d : String) :
    existsSyncDir (writeFileSync fs p c) d = existsSyncDir fs d := rfl

/-- Initialization reports a throw exactly when the launch or the
page open failed. -/
theorem initializeFetcher_throws (env : RunEnv)
    (h : env.launchFails = true ∨ env.newPageFails = true) :
    (initializeFetcher env).2 = true := by
  rcases h with h | h
  · simp [initializeFetcher, h]
  · cases hl : env.launchFails <;> simp [initializeFetcher, h, hl]

/-! ### Claims -/

/-- C1.  A record is emitted for a listing entry exactly when its
date, time and link elements are all present; skipped entries leave
no partial record, extraction preserves document order
(`List.filterMap`), and the fixture container with two well-formed
items and one item missing its time element yields exactly the two
well-formed records in document order. -/
theorem getContent_emits_iff_required :
    (∀ item : DomItem, (extractItem item).isSome = hasRequired item)
    ∧ (∀ doc : List DomItem,
        extractNewsItems { announceList := some doc }
          = doc.filterMap extractItem)
    ∧ extractNewsItems { announceList := some [itemA, itemMissingTime, itemB] }
        = [{ date := "05.10.2024", time := "12:30"
             title := "Meeting with partners"
             link := "https://mid.ru/ru/foreign_policy/news/a"
             tags := ["Diplomacy", "Europe"] },
           { date := "04.10.2024", time := "09:15"
             title := "Press statement"
             link := "https://mid.ru/ru/foreign_policy/news/c"
             tags := [] }] := by
  refine ⟨?_, fun doc => rfl, by decide⟩
  intro item
  obtain ⟨d, t, l, g⟩ := item
  cases d <;> cases t <;> cases l <;> simp [extractItem, hasRequired]

/-- C2.  For every page number at least 2 the fetch navigates to the
listing URL with that exact value in the `PAGEN_1` query parameter;
for page number 1 it navigates to the bare listing URL. -/
theorem getContent_url_pagination (env : PageEnv) (n : Int) (h : 2 ≤ n) :
    (getContent (some env) n).navigatedTo
        = some (listingBaseUrl ++ "?PAGEN_1=" ++ toString n)
    ∧ (getContent (some env) 1).navigatedTo = some listingBaseUrl := by
  have hn : ¬(n = 1) := by omega
  constructor
  · cases hg : env.gotoFails <;> simp [getContent, buildUrl, hn, hg]
  · cases hg : env.gotoFails <;> simp [getContent, buildUrl, hg]

/-- Witness for C2 at page number 2. -/
theorem getContent_url_pagination_witness :
    (getContent (some pageEnvPlain) 2).navigatedTo
        = some (listingBaseUrl ++ "?PAGEN_1=" ++ toString (2 : Int))
    ∧ (getContent (some pageEnvPlain) 1).navigatedTo = some listingBaseUrl :=
  getContent_url_pagination pageEnvPlain 2 (by norm_num)

/-- C3 counterexample.  The claim says the empty tag text parses to
the empty sequence; on the code, an empty tags element parses to the
one-element sequence containing the empty string. -/
theorem tagSplit_empty_counterexample :
    extractTags (some { textContent := some "" }) ≠ ([] : List String) := by
  decide

/-- C3 amended.  Tag parsing splits the trimmed text on the literal
separator `", "`: `"Diplomacy, Europe, Bilateral"` parses to the
ordered sequence of the three tags, while the empty tag text parses
to the one-element sequence containing the empty string (an empty
sequence arises only when no tags element is present). -/
theorem tagSplit_amended :
    extractTags (some { textContent := some "Diplomacy, Europe, Bilateral" })
        = ["Diplomacy", "Europe", "Bilateral"]
    ∧ extractTags (some { textContent := some "" }) = [""]
    ∧ extractTags none = ([] : List String) := by
  decide

/-- C4 counterexample.  The claim says an initialization, fetch or
persistence failure terminates the process with a non-zero status; on
the code, a run whose browser launch throws has the error logged by
the `catch` inside `main` and the process exits with status 0. -/
theorem mainRun_swallows_counterexample :
    (mainRun runEnvInitFail emptyFS).errorLogged = true
    ∧ (mainRun runEnvInitFail emptyFS).exitCode = 0 := by
  decide

/-- C4 amended.  Initialization, fetch and persistence failures are
caught by the `catch` inside `main`, logged, and the process then
exits with status 0; the exit status is non-zero exactly when a
failure escapes `main` — the browser was acquired and its close in
the `finally` block throws. -/
theorem mainRun_exit_amended (env : RunEnv) (fs0 : FS) :
    ((mainRun env fs0).exitCode ≠ 0
        ↔ env.launchFails = false ∧ env.closeFails = true)
    ∧ ((env.launchFails = true ∨ env.newPageFails = true
          ∨ env.pageEnv.gotoFails = true ∨ env.saveFails = true) →
        (mainRun env fs0).errorLogged = true) := by
  obtain ⟨lf, npf, pe, sf, cf⟩ := env
  obtain ⟨gf, sel, rc, nw, dm⟩ := pe
  cases lf <;> cases npf <;> cases gf <;> cases sf <;> cases cf <;>
    simp [mainRun, initializeFetcher, getContent, close]

/-- Witness for C4 amended: a run with a fetch failure and a clean
close logs the error and exits 0, so its exit code is not non-zero. -/
theorem mainRun_exit_amended_witness :
    (mainRun { launchFails := false, newPageFails := false
               pageEnv := { gotoFails := true, selectorTimesOut := false
                            renderedContent := "", navWaitTimesOut := false
                            dom := { announceList := none } }
               saveFails := false, closeFails := false } emptyFS).errorLogged
      = true :=
  (mainRun_exit_amended _ emptyFS).2 (Or.inr (Or.inr (Or.inl rfl)))

/-- C5 counterexample.  The claim says `close` never throws; on the
code, `close` with a held browser whose underlying close fails has no
error handling, so the failure propagates to the caller. -/
theorem close_never_throws_counterexample :
    close true true = CloseOutcome.threw := rfl

/-- C5 amended.  `close` releases the browser session when one is
held and is a safe no-op when no session exists, but it has no error
handling of its own: a failure of the underlying browser close
propagates to the caller rather than being logged and absorbed. -/
theorem close_amended (b f : Bool) :
    (b = false → close b f = CloseOutcome.noSession)
    ∧ (b = true → f = false → close b f = CloseOutcome.closedOk)
    ∧ (b = true → f = true → close b f = CloseOutcome.threw) := by
  cases b <;> cases f <;> simp [close]

/-- Witness for C5 amended at both concrete session states. -/
theorem close_amended_witness :
    close false true = CloseOutcome.noSession
    ∧ close true false = CloseOutcome.closedOk :=
  ⟨(close_amended false true).1 rfl, (close_amended true false).2.1 rfl rfl⟩

/-- C6.  `getContent` on an initialized page ends in the fetch error
exactly when the navigation itself fails; when navigation succeeds,
the selector-wait and anti-bot-wait timeouts are merely logged and
the call still returns the extracted records, and an extraction
yielding zero records returns the empty list successfully. -/
theorem getContent_fetchError_only_navigation (env : PageEnv) (n : Int) :
    ((getContent (some env) n).outcome = GetContentOutcome.fetchError n
        ↔ env.gotoFails = true)
    ∧ (env.gotoFails = false →
        (getContent (some env) n).outcome
            = GetContentOutcome.ok (extractNewsItems env.dom)
        ∧ (getContent (some env) n).selectorTimeoutLogged
            = env.selectorTimesOut
        ∧ (getContent (some env) n).navTimeoutLogged
            = (detectAntiBot env.renderedContent && env.navWaitTimesOut))
    ∧ (env.gotoFails = false → env.dom.announceList = none →
        (getContent (some env) n).outcome = GetContentOutcome.ok []) := by
  refine ⟨?_, ?_, ?_⟩
  · cases hg : env.gotoFails <;> simp [getContent, hg]
  · intro hg
    simp [getContent, hg]
  · intro hg hdom
    simp [getContent, hg, extractNewsItems, hdom]

/-- Witness for C6: a page whose selector wait times out and whose
container never appears still returns the empty list successfully,
with the timeout logged. -/
theorem getContent_fetchError_only_navigation_witness :
    (getContent (some pageEnvNoContainer) 1).outcome = GetContentOutcome.ok []
    ∧ (getContent (some pageEnvNoContainer) 1).selectorTimeoutLogged
        = pageEnvNoContainer.selectorTimesOut :=
  ⟨(getContent_fetchError_only_navigation pageEnvNoContainer 1).2.2 rfl rfl,
   ((getContent_fetchError_only_navigation pageEnvNoContainer 1).2.1
       rfl).2.1⟩

/-- C7.  `saveToJSON` ensures the output directory exists, writes
the records as 2-space-indented JSON to the joined path replacing any
existing file there (a second save with the same filename overwrites),
and serializes the empty record list as the JSON array literal
`[]`. -/
theorem saveToJSON_spec (fs : FS) (data : List NewsItem)
    (filename : String) :
    existsSyncDir (saveToJSON fs data filename) outputDir = true
    ∧ readFile (saveToJSON fs data filename) (pathJoin outputDir filename)
        = some (jsonStringify data)
    ∧ (∀ data2 : List NewsItem,
        readFile (saveToJSON (saveToJSON fs data filename) data2 filename)
            (pathJoin outputDir filename) = some (jsonStringify data2))
    ∧ jsonStringify [] = "[]" := by
  refine ⟨?_, readFile_write_self _ _ _,
    fun data2 => readFile_write_self _ _ _, rfl⟩
  have h := existsSyncDir_write (ensureOutputDir fs)
    (pathJoin outputDir filename) (jsonStringify data) outputDir
  exact h.trans (ensureOutputDir_exists fs)

/-- C8.  With no page resource, `getContent` fails fast with the
not-initialized error and attempts no navigation; a run whose
initialization fails performs no navigation, leaves the filesystem
untouched, and has the failure logged. -/
theorem notInitialized_failfast (env : RunEnv) (fs0 : FS) (n : Int)
    (h : env.launchFails = true ∨ env.newPageFails = true) :
    (getContent none n).outcome = GetContentOutcome.notInitialized
    ∧ (getContent none n).navigatedTo = none
    ∧ (mainRun env fs0).navigations = []
    ∧ (mainRun env fs0).fs = fs0
    ∧ (mainRun env fs0).errorLogged = true := by
  have hinit := initializeFetcher_throws env h
  refine ⟨rfl, rfl, ?_, ?_, ?_⟩ <;> simp [mainRun, hinit]

/-- Witness for C8: a run whose browser launch fails. -/
theorem notInitialized_failfast_witness :
    (getContent none 1).outcome = GetContentOutcome.notInitialized
    ∧ (getContent none 1).navigatedTo = none
    ∧ (mainRun runEnvInitFail emptyFS).navigations = []
    ∧ (mainRun runEnvInitFail emptyFS).fs = emptyFS
    ∧ (mainRun runEnvInitFail emptyFS).errorLogged = true :=
  notInitialized_failfast runEnvInitFail emptyFS 1 (Or.inl rfl)

/-- C9.  The page-number precondition is never validated: for every
page number other than 1 — including 0 and negative values —
`getContent` proceeds, navigating to the listing URL with that value
embedded verbatim in the `PAGEN_1` query parameter, and still
returns the extracted records when navigation succeeds. -/
theorem getContent_no_validation (env : PageEnv) (n : Int) (h : n ≠ 1) :
    (getContent (some env) n).navigatedTo
        = some (listingBaseUrl ++ "?PAGEN_1=" ++ toString n)
    ∧ (env.gotoFails = false →
        (getContent (some env) n).outcome
            = GetContentOutcome.ok (extractNewsItems env.dom)) := by
  constructor
  · cases hg : env.gotoFails <;> simp [getContent, buildUrl, h, hg]
  · intro hg
    simp [getContent, hg]

/-- Witness for C9 at the out-of-contract page number `-3`. -/
theorem getContent_no_validation_witness :
    (getContent (some pageEnvPlain) (-3)).navigatedTo
        = some (listingBaseUrl ++ "?PAGEN_1=" ++ toString (-3 : Int))
    ∧ (getContent (some pageEnvPlain) (-3)).outcome
        = GetContentOutcome.ok (extractNewsItems pageEnvPlain.dom) :=
  ⟨(getContent_no_validation pageEnvPlain (-3) (by decide)).1,
   (getContent_no_validation pageEnvPlain (-3) (by decide)).2 rfl⟩

/-- C10.  Whenever the tags element is present (with the non-null
text an element node always has), the parsed tag sequence is
nonempty — splitting on `", "` never yields an empty sequence — so an
empty tags sequence occurs only when the tags element is absent. -/
theorem extractTags_present_nonempty (e : DomElem) (t : String)
    (h : e.textContent = some t) :
    extractTags (some e) ≠ []
    ∧ extractTags none = ([] : List String) := by
  refine ⟨?_, rfl⟩
  have he : extractTags (some e) = jsSplit (jsTrim t) ", " := by
    simp [extractTags, h]
  rw [he]
  exact jsSplit_ne_nil _ _

/-- Witness for C10 at the empty-text tags element. -/
theorem extractTags_present_nonempty_witness :
    extractTags (some { textContent := some "" }) ≠ []
    ∧ extractTags none = ([] : List String) :=
  extractTags_present_nonempty { textContent := some "" } "" rfl
